import Mathlib

/-!
Shallow embedding of the `measureme` profiler write path
(src/measureme/src/profiler.rs) and of the flamegraph CLI front end
(src/flamegraph/src/main.rs), together with models — faithful to the
specification — of the small collaborator modules (file_header, raw_event,
stringtable) whose sources are not part of this tree.
-/

namespace Measureme

/-! ## Paths and Rust `Path::with_extension` semantics -/

/-- A file-system path, split into an opaque directory prefix and the final
file-name component.  `Path::with_extension` only ever rewrites the final
component, so the directory part can stay abstract.  The model assumes the
path has a final file-name component (Rust `set_extension` is a no-op
otherwise). -/
structure RustPath where
  dir : String
  fileName : String
deriving DecidableEq, Repr

/-- Splits a file name's character list at its LAST dot: returns the
characters before that dot and, when a dot exists, the characters after it
(the extension). -/
def stemExtChars : List Char → List Char × Option (List Char)
  | [] => ([], none)
  | c :: rest =>
    match stemExtChars rest with
    | (s, some e) => (c :: s, some e)
    | (s, none) => if c = '.' then ([], some s) else (c :: s, none)

/-- Rust `Path::file_stem` semantics on a file name: the portion before the
last dot, except that a name beginning with a dot and containing no further
dot is its own stem (e.g. a dot-file has no extension). -/
def fileStem (name : String) : String :=
  match name.toList with
  | [] => ""
  | c :: rest =>
    if c = '.' ∧ ¬ rest.contains '.' then name
    else String.mk (stemExtChars (c :: rest)).1

/-- Rust `Path::with_extension` on the file-name component: replaces the
extension (everything after the last dot, honouring the dot-file special
case) with `ext`; appends a dot only when `ext` is nonempty. -/
def setFileExtension (name : String) (ext : String) : String :=
  if ext = "" then fileStem name else fileStem name ++ "." ++ ext

/-- Rust `PathBuf::with_extension`, lifted to our path model. -/
def RustPath.withExtension (p : RustPath) (ext : String) : RustPath :=
  ⟨p.dir, setFileExtension p.fileName ext⟩

/-! ## ProfilerFiles (profiler.rs lines 10-24) -/

/-- The three per-session files, exactly as `pub struct ProfilerFiles`. -/
structure ProfilerFiles where
  events_file : RustPath
  string_data_file : RustPath
  string_index_file : RustPath
deriving DecidableEq, Repr

/-- Embedding of `ProfilerFiles::new`: derives the triple from the stem by
`with_extension` with the three fixed suffixes. -/
def ProfilerFiles.new (path_stem : RustPath) : ProfilerFiles :=
  ⟨path_stem.withExtension "events",
   path_stem.withExtension "string_data",
   path_stem.withExtension "string_index"⟩

example : setFileExtension "trace.1" "events" = "trace.events" := by decide
example : setFileExtension "trace" "events" = "trace.events" := by decide
example : setFileExtension ".hidden" "events" = ".hidden.events" := by decide
example : setFileExtension "a.b.c" "events" = "a.b.events" := by decide

/-! ## Raw events (modelled: raw_event.rs is not part of this tree) -/

/-- Modelled from the spec: a StringId is a dense integer identifier. -/
abbrev StringId := Nat

/-- The Start/End tag of a timestamp. -/
inductive TimestampKind where
  | Start
  | End
deriving DecidableEq, Repr

/-- Modelled from the spec: a Timestamp carries a 64-bit nanosecond offset
from the session's time-zero together with its Start/End kind (the source
packs the kind into a reserved high bit of the offset field; the model keeps
the two components separate). -/
structure Timestamp where
  nanos : Nat
  kind : TimestampKind
deriving DecidableEq, Repr

/-- Modelled from the spec: `Timestamp::new(nanos, kind)`. -/
def Timestamp.new (nanos : Nat) (kind : TimestampKind) : Timestamp :=
  ⟨nanos, kind⟩

/-- The fixed-size binary event record, fields as in `RawEvent` of the
source (`event_kind`, `id`, `thread_id`, `timestamp`). -/
structure RawEvent where
  event_kind : StringId
  id : StringId
  thread_id : Nat
  timestamp : Timestamp
deriving DecidableEq, Repr

/-- Modelled from the spec: every `RawEvent` occupies the same fixed byte
width — two fixed-width StringIds (taken as 32-bit), a 64-bit thread id and
a 64-bit timestamp word. -/
def sizeOfRawEvent : Nat := 4 + 4 + 8 + 8

/-! ## Serialization sink writes

A sink is modelled by the ordered list of `write_atomic` calls performed on
it; each call reserves `size` bytes and fills them with one payload. -/

/-- What one `write_atomic` call put into a sink. -/
inductive WritePayload where
  | header (magic : List Nat)
  | rawEvent (e : RawEvent)
deriving DecidableEq, Repr

/-- One `write_atomic` call: its byte count and its payload. -/
structure AtomicWrite where
  size : Nat
  payload : WritePayload
deriving DecidableEq, Repr

/-- Modelled from the spec: the fixed magic constant of the events stream
(file_header.rs is not part of this tree; the spec fixes only that the
constant exists and is distinct per stream kind). -/
def FILE_MAGIC_EVENT_STREAM : List Nat := [77, 77, 69, 83]

/-- Modelled from the spec: `write_file_header(sink, magic)` performs one
`write_atomic` call writing the magic constant. -/
def write_file_header (sink : List AtomicWrite) (magic : List Nat) :
    List AtomicWrite :=
  sink ++ [⟨magic.length, WritePayload.header magic⟩]

/-! ## String table (modelled: stringtable.rs is not part of this tree) -/

/-- Modelled from the spec: the one reserved id for session metadata. -/
def METADATA_STRING_ID : StringId := 0

/-- Modelled from the spec: dynamic ids start strictly above the highest
reserved id. -/
def FIRST_DYNAMIC_ID : Nat := 64

/-- Modelled from the spec: the builder's observable state — every `(id,
content)` allocation in order (covering both backing streams), the payloads
passed to `alloc_metadata`, and the next dynamic id. -/
structure StringTableState where
  allocs : List (StringId × String)
  metadataAllocs : List String
  nextDynamicId : Nat
deriving DecidableEq, Repr

/-- Modelled from the spec: `StringTableBuilder::new` over two fresh sinks. -/
def StringTableBuilder.new : StringTableState :=
  ⟨[], [], FIRST_DYNAMIC_ID⟩

/-- Modelled from the spec: `alloc` interns under a fresh dynamic id. -/
def StringTableState.alloc (st : StringTableState) (s : String) :
    StringId × StringTableState :=
  (st.nextDynamicId,
   { st with
     allocs := st.allocs ++ [(st.nextDynamicId, s)]
     nextDynamicId := st.nextDynamicId + 1 })

/-- Modelled from the spec: `alloc_with_reserved_id` interns under the
caller-supplied reserved id. -/
def StringTableState.alloc_with_reserved_id (st : StringTableState)
    (id : StringId) (s : String) : StringId × StringTableState :=
  (id, { st with allocs := st.allocs ++ [(id, s)] })

/-- Modelled from the spec: `alloc_metadata` allocates the one reserved
metadata id with the given payload. -/
def StringTableState.alloc_metadata (st : StringTableState)
    (payload : String) : StringTableState :=
  { st with
    allocs := st.allocs ++ [(METADATA_STRING_ID, payload)]
    metadataAllocs := st.metadataAllocs ++ [payload] }

/-! ## Profiler (profiler.rs lines 26-137) -/

/-- A Rust `Duration`, as observed via `as_secs` / `subsec_nanos`. -/
structure RustDuration where
  secs : Nat
  subsec_nanos : Nat
deriving DecidableEq, Repr

/-- The write-path orchestrator.  `eventSink` is the events sink's write
trace, `string_table` the builder state (covering the other two sinks),
`start_time` the monotonic instant captured as time-zero, and
`createdSinks` a ghost trace of the paths passed to successful
`S::from_path` calls during construction. -/
structure Profiler where
  eventSink : List AtomicWrite
  string_table : StringTableState
  start_time : Nat
  createdSinks : List RustPath
deriving DecidableEq, Repr

/-- Embedding of `Profiler::record_event` (lines 86-118): computes the
nanoseconds since time-zero from the elapsed duration (u64 arithmetic, so
reduced mod 2^64), builds the `RawEvent`, and performs exactly one
`write_atomic` of `size_of::<RawEvent>()` bytes on the events sink.  The
elapsed duration, produced by `Instant::elapsed` in the source, enters as
the environment input `duration_since_start`. -/
def Profiler.record_event (p : Profiler) (event_kind : StringId)
    (event_id : StringId) (thread_id : Nat) (timestamp_kind : TimestampKind)
    (duration_since_start : RustDuration) : Profiler :=
  let nanos_since_start : Nat :=
    (duration_since_start.secs * 1000000000 +
      duration_since_start.subsec_nanos) % 2 ^ 64
  let timestamp := Timestamp.new nanos_since_start timestamp_kind
  let raw_event : RawEvent := ⟨event_kind, event_id, thread_id, timestamp⟩
  { p with
    eventSink :=
      p.eventSink ++ [⟨sizeOfRawEvent, WritePayload.rawEvent raw_event⟩] }

/-- Embedding of `Profiler::alloc_string` (lines 80-82). -/
def Profiler.alloc_string (p : Profiler) (s : String) : StringId × Profiler :=
  let (id, st) := p.string_table.alloc s
  (id, { p with string_table := st })

/-- Embedding of `Profiler::alloc_string_with_reserved_id` (lines 71-77). -/
def Profiler.alloc_string_with_reserved_id (p : Profiler) (id : StringId)
    (s : String) : StringId × Profiler :=
  let (id2, st) := p.string_table.alloc_with_reserved_id id s
  (id2, { p with string_table := st })

/-- The scope guard returned by `start_recording_interval_event` (lines
142-147); in the embedding the profiler state is passed explicitly instead
of being borrowed. -/
structure TimingGuard where
  event_id : StringId
  event_kind : StringId
  thread_id : Nat
deriving DecidableEq, Repr

/-- Embedding of `Profiler::start_recording_interval_event` (lines
122-136): records a Start event immediately and returns the guard holding
the same triple. -/
def Profiler.start_recording_interval_event (p : Profiler)
    (event_kind : StringId) (event_id : StringId) (thread_id : Nat)
    (duration_since_start : RustDuration) : Profiler × TimingGuard :=
  (p.record_event event_kind event_id thread_id TimestampKind.Start
      duration_since_start,
   ⟨event_id, event_kind, thread_id⟩)

/-- Embedding of `impl Drop for TimingGuard` (lines 149-159): the release
records one End event with the guard's stored triple. -/
def TimingGuard.drop (g : TimingGuard) (p : Profiler)
    (duration_since_start : RustDuration) : Profiler :=
  p.record_event g.event_kind g.event_id g.thread_id TimestampKind.End
    duration_since_start

/-! ## Session construction (profiler.rs lines 33-68) -/

/-- Environment a session construction observes: which paths
`S::from_path` can create a sink for, the monotonic instant taken as
time-zero, the wall-clock time, the process id and the command-line
arguments. -/
structure SessionEnv where
  sinkCreateOk : RustPath → Bool
  monotonicNow : Nat
  unixTimeNanos : Nat
  processId : Nat
  cmdArgs : List String

/-- The error value of a failed construction. -/
inductive ProfilerError where
  | ioError (path : RustPath)
deriving DecidableEq, Repr

/-- Embedding of `S::from_path(path)?`: succeeds or fails according to the
environment. -/
def sinkFromPath (env : SessionEnv) (p : RustPath) :
    Except ProfilerError Unit :=
  if env.sinkCreateOk p then Except.ok () else
    Except.error (ProfilerError.ioError p)

/-- Embedding of Rust `char::escape_default` (ASCII-faithful): the escapes
used for tab, carriage return, newline, backslash and both quote
characters, printable ASCII unchanged, and a unicode escape otherwise. -/
def escapeDefaultChar (c : Char) : String :=
  if c = '\t' then "\\t"
  else if c = '\r' then "\\r"
  else if c = '\n' then "\\n"
  else if c = '\\' then "\\\\"
  else if c = '\x27' then "\\\x27"
  else if c = '\"' then "\\\""
  else if c.toNat < 32 ∨ 126 < c.toNat then
    "\\u\x7b" ++ String.mk (Nat.toDigits 16 c.toNat) ++ "\x7d"
  else String.mk [c]

/-- Rust `str::escape_default`: every character escaped in turn. -/
def escape_default (s : String) : String :=
  String.join (s.toList.map escapeDefaultChar)

/-- The argument string built in lines 51-55: each argument escaped and
followed by one space. -/
def argsString (args : List String) : String :=
  String.join (args.map (fun a => escape_default a ++ " "))

/-- The metadata payload of lines 57-65, the `format!` template spelled
out. -/
def metadataPayload (startTimeNanos : Nat) (processId : Nat)
    (args : String) : String :=
  "\x7b \"start_time\": " ++ toString startTimeNanos ++
    ", \"process_id\": " ++ toString processId ++
    ", \"cmd\": \"" ++ args ++ "\" \x7d"

/-- Embedding of `Profiler::new` (lines 33-68): derive the file triple,
create the events sink, write the event-stream file header as the first
bytes of that sink, create the two string-table sinks, capture time-zero,
build the escaped argument string and allocate the session metadata. -/
def Profiler.new (env : SessionEnv) (path_stem : RustPath) :
    Except ProfilerError Profiler :=
  let paths := ProfilerFiles.new path_stem
  match sinkFromPath env paths.events_file with
  | Except.error e => Except.error e
  | Except.ok _ =>
    let eventSink := write_file_header [] FILE_MAGIC_EVENT_STREAM
    match sinkFromPath env paths.string_data_file with
    | Except.error e => Except.error e
    | Except.ok _ =>
      match sinkFromPath env paths.string_index_file with
      | Except.error e => Except.error e
      | Except.ok _ =>
        let string_table := StringTableBuilder.new
        let profiler : Profiler :=
          { eventSink := eventSink
            string_table := string_table
            start_time := env.monotonicNow
            createdSinks := [paths.events_file, paths.string_data_file,
                             paths.string_index_file] }
        let args := argsString env.cmdArgs
        Except.ok
          { profiler with
            string_table := profiler.string_table.alloc_metadata
              (metadataPayload env.unixTimeNanos env.processId args) }

/-! ## Sequences of profiler operations after construction -/

/-- One post-construction operation on a live profiler. -/
inductive ProfilerOp where
  | record (event_kind event_id : StringId) (thread_id : Nat)
      (timestamp_kind : TimestampKind) (d : RustDuration)
  | allocString (s : String)
  | allocReserved (id : StringId) (s : String)
  | startInterval (event_kind event_id : StringId) (thread_id : Nat)
      (d : RustDuration)
  | dropGuard (g : TimingGuard) (d : RustDuration)

/-- Applies one operation to the profiler state. -/
def Profiler.applyOp (p : Profiler) : ProfilerOp → Profiler
  | ProfilerOp.record k i t tk d => p.record_event k i t tk d
  | ProfilerOp.allocString s => (p.alloc_string s).2
  | ProfilerOp.allocReserved id s => (p.alloc_string_with_reserved_id id s).2
  | ProfilerOp.startInterval k i t d =>
      (p.start_recording_interval_event k i t d).1
  | ProfilerOp.dropGuard g d => g.drop p d

/-- Runs a whole sequence of operations. -/
def Profiler.runOps (p : Profiler) (ops : List ProfilerOp) : Profiler :=
  ops.foldl Profiler.applyOp p

/-! ## Flamegraph CLI (src/flamegraph/src/main.rs) -/

/-- Rust `u64::from_str` semantics: an optional leading plus sign, then at
least one decimal digit, value below 2^64. -/
def parseU64 (s : String) : Option Nat :=
  let cs := match s.toList with
    | '+' :: rest => rest
    | cs => cs
  if cs ≠ [] ∧ cs.all (fun c => c.isDigit) then
    let n := cs.foldl (fun acc c => acc * 10 + (c.toNat - 48)) 0
    if n < 2 ^ 64 then some n else none
  else none

/-- The structopt `interval` option of `Opt` (main.rs lines 14-21): when
the flag is absent the default value string is parsed; otherwise the given
argument string is.  There is no positivity check anywhere. -/
def parseInterval (arg : Option String) : Option Nat :=
  parseU64 (arg.getD "1")

/-- Environment the CLI run observes: the interval argument string (none
when the flag was omitted), the path-stem positional argument, whether
`ProfilingData::new` and `File::create` succeed, and the mapping computed
by `collapse_stacks` (tools_lib, not part of this tree) as a function of
the interval it is handed. -/
structure CliEnv where
  argInterval : Option String
  fileStemArg : RustPath
  profilingDataOk : Bool
  svgCreateOk : Bool
  collapseResult : Nat → List (String × Nat)

/-- The observable side effects of a CLI run, in order. -/
inductive CliAction where
  | openProfilingData (p : RustPath)
  | collapse (interval : Nat)
  | createFile (name : String)
  | render (lines : List String)
deriving DecidableEq, Repr

/-- The CLI errors that abort the run. -/
inductive CliError where
  | optParseError (arg : String)
  | dataError (p : RustPath)
  | ioCreateError (name : String)
deriving DecidableEq, Repr

/-- What a successful CLI run produced. -/
structure CliOutcome where
  intervalPassedToCollapse : Nat
  linesToRenderer : List String
  actions : List CliAction
deriving DecidableEq, Repr

/-- Embedding of `main` (main.rs lines 23-47): parse the options, open the
profiling data, collapse the stacks at the parsed interval, format one
`"<stack> <count>"` line per pair, create the fixed output file
`rustc.svg` (Rust `File::create`, which truncates an existing file) and
hand the lines to the flamegraph renderer. -/
def cliMain (env : CliEnv) : Except CliError CliOutcome :=
  match parseInterval env.argInterval with
  | none => Except.error (CliError.optParseError (env.argInterval.getD "1"))
  | some interval =>
    if env.profilingDataOk then
      let recorded_stacks :=
        (env.collapseResult interval).map
          (fun sc => sc.1 ++ " " ++ toString sc.2)
      if env.svgCreateOk then
        Except.ok
          { intervalPassedToCollapse := interval
            linesToRenderer := recorded_stacks
            actions :=
              [CliAction.openProfilingData env.fileStemArg,
               CliAction.collapse interval,
               CliAction.createFile "rustc.svg",
               CliAction.render recorded_stacks] }
      else Except.error (CliError.ioCreateError "rustc.svg")
    else Except.error (CliError.dataError env.fileStemArg)

/-! ## Helper lemmas -/

set_option maxRecDepth 4000

/-- A successful `Profiler.new` forces all three sink creations to succeed
and fully determines the resulting profiler state. -/
theorem new_ok_elim {env : SessionEnv} {stem : RustPath} {pr : Profiler}
    (h : Profiler.new env stem = Except.ok pr) :
    env.sinkCreateOk (ProfilerFiles.new stem).events_file = true ∧
    env.sinkCreateOk (ProfilerFiles.new stem).string_data_file = true ∧
    env.sinkCreateOk (ProfilerFiles.new stem).string_index_file = true ∧
    pr = { eventSink := write_file_header [] FILE_MAGIC_EVENT_STREAM
           string_table := StringTableBuilder.new.alloc_metadata
             (metadataPayload env.unixTimeNanos env.processId
               (argsString env.cmdArgs))
           start_time := env.monotonicNow
           createdSinks := [(ProfilerFiles.new stem).events_file,
                            (ProfilerFiles.new stem).string_data_file,
                            (ProfilerFiles.new stem).string_index_file] } := by
  by_cases h1 : env.sinkCreateOk (ProfilerFiles.new stem).events_file
  · by_cases h2 : env.sinkCreateOk (ProfilerFiles.new stem).string_data_file
    · by_cases h3 : env.sinkCreateOk (ProfilerFiles.new stem).string_index_file
      · refine ⟨h1, h2, h3, ?_⟩
        simp [Profiler.new, sinkFromPath, h1, h2, h3] at h
        exact h.symm
      · simp [Profiler.new, sinkFromPath, h1, h2, h3] at h
    · simp [Profiler.new, sinkFromPath, h1, h2] at h
  · simp [Profiler.new, sinkFromPath, h1] at h

/-- When all three sink creations succeed, `Profiler.new` succeeds. -/
theorem new_ok_of {env : SessionEnv} {stem : RustPath}
    (h1 : env.sinkCreateOk (ProfilerFiles.new stem).events_file = true)
    (h2 : env.sinkCreateOk (ProfilerFiles.new stem).string_data_file = true)
    (h3 : env.sinkCreateOk (ProfilerFiles.new stem).string_index_file = true) :
    Profiler.new env stem =
      Except.ok
        { eventSink := write_file_header [] FILE_MAGIC_EVENT_STREAM
          string_table := StringTableBuilder.new.alloc_metadata
            (metadataPayload env.unixTimeNanos env.processId
              (argsString env.cmdArgs))
          start_time := env.monotonicNow
          createdSinks := [(ProfilerFiles.new stem).events_file,
                           (ProfilerFiles.new stem).string_data_file,
                           (ProfilerFiles.new stem).string_index_file] } := by
  simp [Profiler.new, sinkFromPath, h1, h2, h3]

/-- Every post-construction operation only appends to the events sink. -/
theorem applyOp_eventSink (p : Profiler) (op : ProfilerOp) :
    ∃ t, (p.applyOp op).eventSink = p.eventSink ++ t := by
  cases op <;>
    simp [Profiler.applyOp, Profiler.record_event, Profiler.alloc_string,
      Profiler.alloc_string_with_reserved_id,
      Profiler.start_recording_interval_event, TimingGuard.drop,
      StringTableState.alloc, StringTableState.alloc_with_reserved_id]

/-- A whole operation sequence only appends to the events sink. -/
theorem runOps_eventSink (p : Profiler) (ops : List ProfilerOp) :
    ∃ t, (p.runOps ops).eventSink = p.eventSink ++ t := by
  induction ops generalizing p with
  | nil => exact ⟨[], by simp [Profiler.runOps]⟩
  | cons op ops ih =>
    obtain ⟨t1, h1⟩ := applyOp_eventSink p op
    obtain ⟨t2, h2⟩ := ih (p.applyOp op)
    refine ⟨t1 ++ t2, ?_⟩
    simp only [Profiler.runOps, List.foldl_cons] at h2 ⊢
    rw [h2, h1, List.append_assoc]

/-- No post-construction operation ever calls `alloc_metadata`. -/
theorem applyOp_metadataAllocs (p : Profiler) (op : ProfilerOp) :
    (p.applyOp op).string_table.metadataAllocs =
      p.string_table.metadataAllocs := by
  cases op <;>
    simp [Profiler.applyOp, Profiler.record_event, Profiler.alloc_string,
      Profiler.alloc_string_with_reserved_id,
      Profiler.start_recording_interval_event, TimingGuard.drop,
      StringTableState.alloc, StringTableState.alloc_with_reserved_id]

/-- No operation sequence ever calls `alloc_metadata`. -/
theorem runOps_metadataAllocs (p : Profiler) (ops : List ProfilerOp) :
    (p.runOps ops).string_table.metadataAllocs =
      p.string_table.metadataAllocs := by
  induction ops generalizing p with
  | nil => rfl
  | cons op ops ih =>
    simp only [Profiler.runOps, List.foldl_cons]
    rw [show (ops.foldl Profiler.applyOp (p.applyOp op)) =
        (p.applyOp op).runOps ops from rfl, ih, applyOp_metadataAllocs]

/-- Setting the `events` extension appends the dotted suffix to the stem. -/
theorem setFileExtension_events (s : String) :
    setFileExtension s "events" = fileStem s ++ ".events" := by
  rw [setFileExtension, if_neg (by decide), String.append_assoc]; exact rfl

/-- Setting the `string_data` extension appends the dotted suffix. -/
theorem setFileExtension_string_data (s : String) :
    setFileExtension s "string_data" = fileStem s ++ ".string_data" := by
  rw [setFileExtension, if_neg (by decide), String.append_assoc]; exact rfl

/-- Setting the `string_index` extension appends the dotted suffix. -/
theorem setFileExtension_string_index (s : String) :
    setFileExtension s "string_index" = fileStem s ++ ".string_index" := by
  rw [setFileExtension, if_neg (by decide), String.append_assoc]; exact rfl

/-- A successful `cliMain` run fully determines the outcome. -/
theorem cliMain_ok_elim {env : CliEnv} {out : CliOutcome}
    (h : cliMain env = Except.ok out) :
    ∃ interval,
      parseInterval env.argInterval = some interval ∧
      env.profilingDataOk = true ∧ env.svgCreateOk = true ∧
      out =
        { intervalPassedToCollapse := interval
          linesToRenderer :=
            (env.collapseResult interval).map
              (fun sc => sc.1 ++ " " ++ toString sc.2)
          actions :=
            [CliAction.openProfilingData env.fileStemArg,
             CliAction.collapse interval,
             CliAction.createFile "rustc.svg",
             CliAction.render
               ((env.collapseResult interval).map
                 (fun sc => sc.1 ++ " " ++ toString sc.2))] } := by
  unfold cliMain at h
  cases hp : parseInterval env.argInterval with
  | none => rw [hp] at h; exact absurd h (by simp)
  | some interval =>
    rw [hp] at h
    by_cases hd : env.profilingDataOk
    · by_cases hs : env.svgCreateOk
      · refine ⟨interval, rfl, hd, hs, ?_⟩
        simp [hd, hs] at h
        exact h.symm
      · simp [hd, hs] at h
    · simp [hd] at h

/-! ## Concrete session and CLI instances used by the witnesses -/

/-- A session environment in which every sink creation succeeds. -/
def envOk : SessionEnv :=
  { sinkCreateOk := fun _ => true
    monotonicNow := 0
    unixTimeNanos := 0
    processId := 0
    cmdArgs := [] }

/-- A session environment in which every sink creation fails. -/
def envFail : SessionEnv :=
  { sinkCreateOk := fun _ => false
    monotonicNow := 0
    unixTimeNanos := 0
    processId := 0
    cmdArgs := [] }

/-- A concrete path stem. -/
def stem0 : RustPath := ⟨"", "trace"⟩

/-- The profiler state `Profiler.new envOk stem0` produces. -/
def pr0 : Profiler :=
  { eventSink := write_file_header [] FILE_MAGIC_EVENT_STREAM
    string_table := StringTableBuilder.new.alloc_metadata
      (metadataPayload 0 0 (argsString []))
    start_time := 0
    createdSinks := [⟨"", "trace.events"⟩, ⟨"", "trace.string_data"⟩,
                     ⟨"", "trace.string_index"⟩] }

example : Profiler.new envOk stem0 = Except.ok pr0 := rfl

/-! ## Claims -/

/-- C1: every `Profiler::record_event` call computes the nanoseconds
elapsed since time-zero, builds one `RawEvent` from the four arguments,
and performs exactly one `write_atomic` of exactly `sizeof(RawEvent)`
bytes on the events sink; the string table (and with it the other two
sinks) is untouched. -/
theorem record_event_single_write (p : Profiler)
    (event_kind event_id : StringId) (thread_id : Nat)
    (timestamp_kind : TimestampKind) (d : RustDuration) :
    (p.record_event event_kind event_id thread_id timestamp_kind d).eventSink
      = p.eventSink ++
        [⟨sizeOfRawEvent, WritePayload.rawEvent
          ⟨event_kind, event_id, thread_id,
           Timestamp.new ((d.secs * 1000000000 + d.subsec_nanos) % 2 ^ 64)
             timestamp_kind⟩⟩] ∧
    (p.record_event event_kind event_id thread_id timestamp_kind d).eventSink.length
      = p.eventSink.length + 1 ∧
    (p.record_event event_kind event_id thread_id timestamp_kind d).string_table
      = p.string_table := by
  refine ⟨rfl, ?_, rfl⟩
  simp [Profiler.record_event]

/-- C2: `start_recording_interval_event` records a Start event with the
given triple immediately and returns a guard storing that same triple;
releasing the guard performs exactly one further write, an End event with
the same `(event_kind, event_id, thread_id)` — so a start followed by the
guard's release yields exactly one matching Start/End pair. -/
theorem interval_guard_matching_pair (p : Profiler)
    (event_kind event_id : StringId) (thread_id : Nat)
    (d1 d2 : RustDuration) :
    (p.start_recording_interval_event event_kind event_id thread_id d1).2
      = ⟨event_id, event_kind, thread_id⟩ ∧
    (p.start_recording_interval_event event_kind event_id thread_id d1).1.eventSink
      = p.eventSink ++
        [⟨sizeOfRawEvent, WritePayload.rawEvent
          ⟨event_kind, event_id, thread_id,
           Timestamp.new ((d1.secs * 1000000000 + d1.subsec_nanos) % 2 ^ 64)
             TimestampKind.Start⟩⟩] ∧
    ((p.start_recording_interval_event event_kind event_id thread_id d1).2.drop
        (p.start_recording_interval_event event_kind event_id thread_id d1).1
        d2).eventSink
      = p.eventSink ++
        [⟨sizeOfRawEvent, WritePayload.rawEvent
          ⟨event_kind, event_id, thread_id,
           Timestamp.new ((d1.secs * 1000000000 + d1.subsec_nanos) % 2 ^ 64)
             TimestampKind.Start⟩⟩,
         ⟨sizeOfRawEvent, WritePayload.rawEvent
          ⟨event_kind, event_id, thread_id,
           Timestamp.new ((d2.secs * 1000000000 + d2.subsec_nanos) % 2 ^ 64)
             TimestampKind.End⟩⟩] := by
  refine ⟨rfl, rfl, ?_⟩
  simp [Profiler.start_recording_interval_event, TimingGuard.drop,
    Profiler.record_event]

/-- C3: after a successful `Profiler::new`, the event-stream file header
(the magic constant of the events stream) is the first `write_atomic` on
the events sink, and stays first after any sequence of profiler
operations — so it precedes every event record. -/
theorem events_header_always_first (env : SessionEnv) (stem : RustPath)
    (pr : Profiler) (ops : List ProfilerOp)
    (h : Profiler.new env stem = Except.ok pr) :
    (pr.runOps ops).eventSink.head? =
      some ⟨FILE_MAGIC_EVENT_STREAM.length,
            WritePayload.header FILE_MAGIC_EVENT_STREAM⟩ := by
  obtain ⟨-, -, -, rfl⟩ := new_ok_elim h
  obtain ⟨t, ht⟩ := runOps_eventSink _ ops
  rw [ht]
  simp [write_file_header]

/-- C3 witness: the header-first property at a concrete session with one
recorded event. -/
theorem events_header_always_first_witness :
    (pr0.runOps [ProfilerOp.record 1 2 3 TimestampKind.Start ⟨0, 5⟩]).eventSink.head?
      = some ⟨FILE_MAGIC_EVENT_STREAM.length,
              WritePayload.header FILE_MAGIC_EVENT_STREAM⟩ :=
  events_header_always_first envOk stem0 pr0
    [ProfilerOp.record 1 2 3 TimestampKind.Start ⟨0, 5⟩] rfl

/-- C4: a successful construction derives exactly three file paths from
the stem — a common base name with the fixed suffixes `.events`,
`.string_data` and `.string_index` — and creates exactly one sink per
file, in that order. -/
theorem three_files_three_sinks (env : SessionEnv) (stem : RustPath)
    (pr : Profiler) (h : Profiler.new env stem = Except.ok pr) :
    ∃ base : String,
      ProfilerFiles.new stem =
        ⟨⟨stem.dir, base ++ ".events"⟩, ⟨stem.dir, base ++ ".string_data"⟩,
         ⟨stem.dir, base ++ ".string_index"⟩⟩ ∧
      pr.createdSinks =
        [⟨stem.dir, base ++ ".events"⟩, ⟨stem.dir, base ++ ".string_data"⟩,
         ⟨stem.dir, base ++ ".string_index"⟩] ∧
      pr.createdSinks.length = 3 := by
  obtain ⟨-, -, -, rfl⟩ := new_ok_elim h
  refine ⟨fileStem stem.fileName, ?_, ?_, rfl⟩ <;>
    simp [ProfilerFiles.new, RustPath.withExtension, setFileExtension_events,
      setFileExtension_string_data, setFileExtension_string_index]

/-- C4 witness: the file triple and sink list at a concrete stem. -/
theorem three_files_three_sinks_witness :
    ∃ base : String,
      ProfilerFiles.new stem0 =
        ⟨⟨stem0.dir, base ++ ".events"⟩,
         ⟨stem0.dir, base ++ ".string_data"⟩,
         ⟨stem0.dir, base ++ ".string_index"⟩⟩ ∧
      pr0.createdSinks =
        [⟨stem0.dir, base ++ ".events"⟩,
         ⟨stem0.dir, base ++ ".string_data"⟩,
         ⟨stem0.dir, base ++ ".string_index"⟩] ∧
      pr0.createdSinks.length = 3 :=
  three_files_three_sinks envOk stem0 pr0 rfl

/-- A CLI environment invoked with interval argument `0`. -/
def envZero : CliEnv :=
  { argInterval := some "0"
    fileStemArg := ⟨"", "trace"⟩
    profilingDataOk := true
    svgCreateOk := true
    collapseResult := fun _ => [] }

/-- A CLI environment with the interval flag omitted and one collapsed
stack. -/
def envLines : CliEnv :=
  { argInterval := none
    fileStemArg := ⟨"", "trace"⟩
    profilingDataOk := true
    svgCreateOk := true
    collapseResult := fun _ => [("a;b", 3)] }

/-- C5 counterexample: the CLI accepts the interval `0` — `parseInterval`
parses it and `cliMain` completes successfully, handing `0` to the
stack-collapse step instead of rejecting it as a configuration error. -/
theorem cli_zero_interval_accepted :
    parseInterval (some "0") = some 0 ∧
    Except.map (fun o => o.intervalPassedToCollapse) (cliMain envZero) =
      Except.ok 0 :=
  ⟨rfl, rfl⟩

/-- C5 amended: the interval option parses as an unsigned 64-bit integer
(so a negative or malformed argument fails option parsing) and defaults to
1 when omitted, but zero is accepted and passed unchanged to the
stack-collapse step. -/
theorem cli_interval_passthrough (env : CliEnv) (n : Nat)
    (hp : parseInterval env.argInterval = some n)
    (hd : env.profilingDataOk = true) (hs : env.svgCreateOk = true) :
    parseInterval none = some 1 ∧
    parseU64 "-5" = none ∧
    Except.map (fun o => o.intervalPassedToCollapse) (cliMain env) =
      Except.ok n := by
  refine ⟨rfl, rfl, ?_⟩
  unfold cliMain
  rw [hp]
  simp [hd, hs, Except.map]

/-- C5 witness: the amended behaviour at the concrete interval argument
`0`. -/
theorem cli_interval_passthrough_witness :
    parseInterval none = some 1 ∧
    parseU64 "-5" = none ∧
    Except.map (fun o => o.intervalPassedToCollapse) (cliMain envZero) =
      Except.ok 0 :=
  cli_interval_passthrough envZero 0 rfl rfl rfl

/-- C6: `Profiler::new` succeeds exactly when all three sink creations
succeed, and whenever it does not succeed its result is an I/O error
naming a path (and carries no profiler value). -/
theorem new_fails_iff_any_sink_fails (env : SessionEnv) (stem : RustPath) :
    ((Profiler.new env stem).isOk = true ↔
      (env.sinkCreateOk (ProfilerFiles.new stem).events_file = true ∧
       env.sinkCreateOk (ProfilerFiles.new stem).string_data_file = true ∧
       env.sinkCreateOk (ProfilerFiles.new stem).string_index_file = true)) ∧
    ((Profiler.new env stem).isOk = false →
      ∃ path, Profiler.new env stem =
        Except.error (ProfilerError.ioError path)) := by
  by_cases h1 : env.sinkCreateOk (ProfilerFiles.new stem).events_file
  · by_cases h2 : env.sinkCreateOk (ProfilerFiles.new stem).string_data_file
    · by_cases h3 : env.sinkCreateOk (ProfilerFiles.new stem).string_index_file
      · constructor
        · simp [Profiler.new, sinkFromPath, h1, h2, h3, Except.isOk, Except.toBool]
        · simp [Profiler.new, sinkFromPath, h1, h2, h3, Except.isOk, Except.toBool]
      · constructor
        · simp [Profiler.new, sinkFromPath, h1, h2, h3, Except.isOk, Except.toBool]
        · exact fun _ =>
            ⟨(ProfilerFiles.new stem).string_index_file,
             by simp [Profiler.new, sinkFromPath, h1, h2, h3]⟩
    · constructor
      · simp [Profiler.new, sinkFromPath, h1, h2, Except.isOk, Except.toBool]
      · exact fun _ =>
          ⟨(ProfilerFiles.new stem).string_data_file,
           by simp [Profiler.new, sinkFromPath, h1, h2]⟩
  · constructor
    · simp [Profiler.new, sinkFromPath, h1, Except.isOk, Except.toBool]
    · exact fun _ =>
        ⟨(ProfilerFiles.new stem).events_file,
         by simp [Profiler.new, sinkFromPath, h1]⟩

/-- C6 witness: with every sink creation failing, construction returns an
I/O error naming a path. -/
theorem new_fails_iff_any_sink_fails_witness :
    ∃ path, Profiler.new envFail stem0 =
      Except.error (ProfilerError.ioError path) :=
  (new_fails_iff_any_sink_fails envFail stem0).2 rfl

/-- C7: construction allocates exactly one session metadata record, under
the reserved metadata id, whose payload holds the wall-clock start time,
the process id and the escaped command invocation; no later profiler
operation allocates metadata again. -/
theorem session_metadata_once (env : SessionEnv) (stem : RustPath)
    (pr : Profiler) (ops : List ProfilerOp)
    (h : Profiler.new env stem = Except.ok pr) :
    pr.string_table.metadataAllocs =
      ["\x7b \"start_time\": " ++ toString env.unixTimeNanos ++
       ", \"process_id\": " ++ toString env.processId ++
       ", \"cmd\": \"" ++ argsString env.cmdArgs ++ "\" \x7d"] ∧
    pr.string_table.allocs =
      [(METADATA_STRING_ID,
        metadataPayload env.unixTimeNanos env.processId
          (argsString env.cmdArgs))] ∧
    (pr.runOps ops).string_table.metadataAllocs =
      pr.string_table.metadataAllocs := by
  obtain ⟨-, -, -, rfl⟩ := new_ok_elim h
  exact ⟨rfl, rfl, runOps_metadataAllocs _ _⟩

/-- C7 witness: the metadata record of the concrete session, stable under
a subsequent string allocation. -/
theorem session_metadata_once_witness :
    pr0.string_table.metadataAllocs =
      ["\x7b \"start_time\": " ++ toString (0:Nat) ++
       ", \"process_id\": " ++ toString (0:Nat) ++
       ", \"cmd\": \"" ++ argsString [] ++ "\" \x7d"] ∧
    pr0.string_table.allocs =
      [(METADATA_STRING_ID, metadataPayload 0 0 (argsString []))] ∧
    (pr0.runOps [ProfilerOp.allocString "x"]).string_table.metadataAllocs =
      pr0.string_table.metadataAllocs :=
  session_metadata_once envOk stem0 pr0 [ProfilerOp.allocString "x"] rfl

/-- C8: a successful CLI run turns every `(stack, count)` pair produced by
the collapse step into exactly one line `"<stack> <count>"` — label, one
space, decimal count — and the renderer receives exactly that list of
lines, as the final action. -/
theorem folded_lines_format (env : CliEnv) (out : CliOutcome)
    (h : cliMain env = Except.ok out) :
    out.linesToRenderer =
      (env.collapseResult out.intervalPassedToCollapse).map
        (fun sc => sc.1 ++ " " ++ toString sc.2) ∧
    out.actions.getLast? = some (CliAction.render out.linesToRenderer) := by
  obtain ⟨interval, -, -, -, rfl⟩ := cliMain_ok_elim h
  exact ⟨rfl, rfl⟩

/-- C8 witness: the formatted line of the concrete collapsed stack. -/
theorem folded_lines_format_witness :
    (CliOutcome.mk 1 ["a;b 3"]
        [CliAction.openProfilingData ⟨"", "trace"⟩, CliAction.collapse 1,
         CliAction.createFile "rustc.svg",
         CliAction.render ["a;b 3"]]).linesToRenderer =
      (envLines.collapseResult 1).map
        (fun sc => sc.1 ++ " " ++ toString sc.2) ∧
    (CliOutcome.mk 1 ["a;b 3"]
        [CliAction.openProfilingData ⟨"", "trace"⟩, CliAction.collapse 1,
         CliAction.createFile "rustc.svg",
         CliAction.render ["a;b 3"]]).actions.getLast? =
      some (CliAction.render ["a;b 3"]) :=
  folded_lines_format envLines _ rfl

/-- C9: whatever the path-stem argument, a successful run creates the
fixed output file `rustc.svg` (Rust `File::create`, truncating an
existing file) before the render action; the created name never depends
on the stem. -/
theorem svg_output_path_fixed (env : CliEnv) (out : CliOutcome)
    (h : cliMain env = Except.ok out) :
    out.actions =
      [CliAction.openProfilingData env.fileStemArg,
       CliAction.collapse out.intervalPassedToCollapse,
       CliAction.createFile "rustc.svg",
       CliAction.render out.linesToRenderer] := by
  obtain ⟨interval, -, -, -, rfl⟩ := cliMain_ok_elim h
  rfl

/-- C9 witness: the action sequence of the concrete run. -/
theorem svg_output_path_fixed_witness :
    (CliOutcome.mk 1 ["a;b 3"]
        [CliAction.openProfilingData ⟨"", "trace"⟩, CliAction.collapse 1,
         CliAction.createFile "rustc.svg",
         CliAction.render ["a;b 3"]]).actions =
      [CliAction.openProfilingData envLines.fileStemArg,
       CliAction.collapse 1,
       CliAction.createFile "rustc.svg",
       CliAction.render ["a;b 3"]] :=
  svg_output_path_fixed envLines _ rfl

/-- C10: `with_extension` replaces an existing extension instead of
appending — the stem `trace.1` yields `trace.events` — and any two stems
with the same directory and the same file stem produce the identical file
triple. -/
theorem extension_replaced_not_appended (p q : RustPath)
    (hdir : p.dir = q.dir)
    (hstem : fileStem p.fileName = fileStem q.fileName) :
    ProfilerFiles.new p = ProfilerFiles.new q ∧
    ProfilerFiles.new ⟨"", "trace.1"⟩ =
      ⟨⟨"", "trace.events"⟩, ⟨"", "trace.string_data"⟩,
       ⟨"", "trace.string_index"⟩⟩ := by
  constructor
  · simp [ProfilerFiles.new, RustPath.withExtension, setFileExtension,
      hdir, hstem]
  · rfl

/-- C10 witness: the stems `trace.1` and `trace.2` collide on the same
file triple. -/
theorem extension_replaced_not_appended_witness :
    ProfilerFiles.new ⟨"", "trace.1"⟩ = ProfilerFiles.new ⟨"", "trace.2"⟩ ∧
    ProfilerFiles.new ⟨"", "trace.1"⟩ =
      ⟨⟨"", "trace.events"⟩, ⟨"", "trace.string_data"⟩,
       ⟨"", "trace.string_index"⟩⟩ :=
  extension_replaced_not_appended ⟨"", "trace.1"⟩ ⟨"", "trace.2"⟩ rfl rfl

end Measureme
